import Mathlib

/-!
Shallow embedding of the grid-chaos-monkey experiment control plane
(`src/controller.py`, with the scenario guard of `src/chaos.py` and the
simulation-engine boundary of `src/simulation.py`).

Modelling conventions:
- Python floats are modelled as rationals (ℚ); `round(x, 4)` is modelled by
  `pyRound4` (round half to even, Python's rounding mode).
- `str(uuid.uuid4())` is modelled by drawing the next value of a counter
  (`uuid_ctr`) carried in the controller state: each draw is distinct from
  every earlier draw.
- Python exceptions are modelled with `Except`/explicit error values; since
  the Python methods mutate `self` in place and an exception can escape after
  part of the mutation has happened, every operation returns the (possibly
  partially updated) state alongside its `Except` result.
- The simulation engine (`simulation.create_grid` / `simulation.run_simulation`,
  which wraps the external pandapower solver) is an oracle parameter
  `SimEngine`: `create_grid` is the baseline network value and
  `run_simulation` maps a network to `none` (solver failure) or to the
  snapshot dict it builds.
-/

namespace GridChaosMonkey

/-- Python exceptions raised by the controller and the scenario library:
`RuntimeError` and `ValueError`. -/
inductive PyError where
  | runtimeError (msg : String)
  | valueError (msg : String)
deriving DecidableEq, Repr

/-- The dict returned by `simulation.run_simulation` on success
(`converged`, `solve_time_ms`, `min_voltage_pu`, `total_load_mw`,
`generation_mw`); the controller additionally reads an optional `error`
key from it (`snap.get("error")`), so we carry one (absent in the dicts
the real engine builds). -/
structure SolveSnap where
  converged : Bool
  solve_time_ms : ℚ
  min_voltage_pu : ℚ
  total_load_mw : ℚ
  generation_mw : ℚ
  error : Option String := none
deriving DecidableEq, Repr

/-- The simulation-engine boundary (`src/simulation.py`): a baseline network
builder and a solver returning `none` on failure. -/
structure SimEngine (Net : Type) where
  create_grid : Net
  run_simulation : Net → Option SolveSnap

/-- The `Experiment` dataclass of `src/controller.py`. `experiment_id` is the
drawn uuid (see module comment). -/
structure Experiment where
  experiment_id : Nat
  scenario : String
  phase : String
  started_at_ns : Nat
  status : String := "ACTIVE"
  notes : String := ""
  execution_mode : String := "sandbox"
  max_load_loss_pct : ℚ := 1/5
  blast_radius_triggered : Bool := false
  blast_radius_reason : Option String := none
  containment_action : Option String := none
deriving DecidableEq, Repr

/-- The mutable fields of `GridController` (`self.net`,
`self.active_experiment`, `self.simulation_id`, `self.last_mutation_source`)
plus the uuid-freshness counter `uuid_ctr` (see module comment). -/
structure CtrlState (Net : Type) where
  net : Net
  active_experiment : Option Experiment
  simulation_id : Nat
  last_mutation_source : String
  uuid_ctr : Nat
deriving DecidableEq, Repr

/-- The context dict built by `GridController._build_context`.
`experiment_id` is `none` for the `"none"` sentinel used when no experiment
is installed. -/
structure Ctx where
  experiment_id : Option Nat
  scenario : String
  phase : String
  simulation_id : Nat
  mutation_source : String
deriving DecidableEq, Repr

/-- The response dict returned by `GridController.snapshot`. Metric fields
are `Option` because the failure-path responses built by `_build_response`
do not carry them. -/
structure SnapResponse where
  converged : Bool
  error : Option String
  context : Ctx
  execution_mode : String
  containment_action : Option String
  estimated_load_loss_pct : Option ℚ
  blast_radius_triggered : Bool
  blast_radius_reason : Option String
  experiment_status : Option String
  experiment_phase : Option String
  solve_time_ms : Option ℚ := none
  min_voltage_pu : Option ℚ := none
  total_load_mw : Option ℚ := none
  generation_mw : Option ℚ := none
deriving DecidableEq, Repr

section Controller

variable {Net : Type}

/-- Embeds `GridController.__init__`: baseline grid, no experiment, a fresh
`simulation_id` (the first uuid draw), `last_mutation_source = "init"`. -/
def initState (eng : SimEngine Net) : CtrlState Net :=
  { net := eng.create_grid
    active_experiment := none
    simulation_id := 0
    last_mutation_source := "init"
    uuid_ctr := 1 }

/-- Embeds `GridController.reset`. -/
def reset (eng : SimEngine Net) (s : CtrlState Net) : CtrlState Net :=
  { s with
    net := eng.create_grid
    simulation_id := s.uuid_ctr
    active_experiment := none
    last_mutation_source := "reset"
    uuid_ctr := s.uuid_ctr + 1 }

/-- The conflict test of `begin_experiment`:
`self.active_experiment and self.active_experiment.status == "ACTIVE"`. -/
def hasActive (s : CtrlState Net) : Bool :=
  match s.active_experiment with
  | some e => e.status = "ACTIVE"
  | none => false

/-- The `Experiment(...)` record built by `begin_experiment`: phase
`baseline`, status `ACTIVE`, no guardrail state yet; `uuid` is the drawn
experiment id. -/
def new_experiment (scenario notes execution_mode : String)
    (max_load_loss_pct : ℚ) (now_ns uuid : Nat) : Experiment :=
  { experiment_id := uuid
    scenario := scenario
    phase := "baseline"
    started_at_ns := now_ns
    status := "ACTIVE"
    notes := notes
    execution_mode := execution_mode
    max_load_loss_pct := max_load_loss_pct }

/-- Embeds `GridController.begin_experiment`. The Python error messages contain
quote characters; they are reproduced here without the quotes. -/
def begin_experiment (scenario notes execution_mode : String)
    (max_load_loss_pct : ℚ) (now_ns : Nat) (s : CtrlState Net) :
    Except PyError Experiment × CtrlState Net :=
  if hasActive s then
    (.error (.runtimeError
      "An experiment is already active. End it before starting a new one."), s)
  else if execution_mode = "sandbox" ∨ execution_mode = "guardrailed" then
    (.ok (new_experiment scenario notes execution_mode max_load_loss_pct now_ns s.uuid_ctr),
      { s with
        active_experiment :=
          some (new_experiment scenario notes execution_mode max_load_loss_pct now_ns s.uuid_ctr)
        last_mutation_source := "scenario"
        uuid_ctr := s.uuid_ctr + 1 })
  else
    (.error (.valueError "execution_mode must be sandbox or guardrailed"), s)

/-- Embeds `GridController.set_phase`. -/
def set_phase (phase : String) (s : CtrlState Net) : CtrlState Net :=
  match s.active_experiment with
  | some e =>
      if e.status = "ACTIVE" then
        { s with active_experiment := some { e with phase := phase } }
      else s
  | none => s

/-- Embeds `GridController.end_experiment`. Note that in the source,
`self.last_mutation_source = "end_experiment"` sits outside the
`if self.active_experiment:` block, so it runs unconditionally. -/
def end_experiment (s : CtrlState Net) : CtrlState Net :=
  match s.active_experiment with
  | some e =>
      { s with
        active_experiment := some { e with status := "ENDED", phase := "recovery" }
        last_mutation_source := "end_experiment" }
  | none => { s with last_mutation_source := "end_experiment" }

/-- Embeds `GridController.mutate`: sets `last_mutation_source` first, then applies
`fn` to the network. `fn` models a Python function that mutates the network
in place and may raise: it returns its `Except` result together with the
network as it left it. -/
def mutate {α : Type} (fn : Net → Except PyError α × Net)
    (mutation_source : String) (s : CtrlState Net) :
    Except PyError α × CtrlState Net :=
  let s1 := { s with last_mutation_source := mutation_source }
  let r := fn s1.net
  (r.1, { s1 with net := r.2 })

/-- Embeds `GridController.read`. -/
def read (s : CtrlState Net) : Net := s.net

/-- Embeds `GridController._build_context`. -/
def build_context (s : CtrlState Net) (exp : Option Experiment) : Ctx :=
  match exp with
  | none =>
      { experiment_id := none
        scenario := "none"
        phase := "baseline"
        simulation_id := s.simulation_id
        mutation_source := s.last_mutation_source }
  | some e =>
      { experiment_id := some e.experiment_id
        scenario := e.scenario
        phase := e.phase
        simulation_id := s.simulation_id
        mutation_source := s.last_mutation_source }

/-- Embeds `GridController._rollback`. -/
def rollback (eng : SimEngine Net) (s : CtrlState Net) : CtrlState Net :=
  { s with
    net := eng.create_grid
    simulation_id := s.uuid_ctr
    last_mutation_source := "rollback"
    uuid_ctr := s.uuid_ctr + 1 }

/-- Embeds `GridController._trigger_containment`: marks the containment action,
ends the experiment, rolls the grid back. In Python `exp` is the very
object stored in `self.active_experiment`, so the in-place mutation is
modelled by storing the updated record back into the state. -/
def trigger_containment (eng : SimEngine Net) (s : CtrlState Net)
    (e : Experiment) (action : String) : Experiment × CtrlState Net :=
  let e' : Experiment :=
    { e with containment_action := some action, status := "ENDED", phase := "recovery" }
  (e', rollback eng { s with active_experiment := some e' })

/-- Embeds `GridController._build_response`. -/
def build_response (converged : Bool) (error : Option String) (ctx : Ctx)
    (exp : Option Experiment) (estimated_load_loss_pct : Option ℚ) :
    SnapResponse :=
  { converged := converged
    error := error
    context := ctx
    execution_mode := match exp with | some e => e.execution_mode | none => "sandbox"
    containment_action := match exp with | some e => e.containment_action | none => none
    estimated_load_loss_pct := estimated_load_loss_pct
    blast_radius_triggered := match exp with | some e => e.blast_radius_triggered | none => false
    blast_radius_reason := match exp with | some e => e.blast_radius_reason | none => none
    experiment_status := match exp with | some e => some e.status | none => none
    experiment_phase := match exp with | some e => some e.phase | none => none }

end Controller

/-- Round half to even, Python's rounding mode for `round`. -/
def roundHalfEven (q : ℚ) : ℤ :=
  let f := ⌊q⌋
  let frac := q - f
  if frac < 1/2 then f
  else if 1/2 < frac then f + 1
  else if f % 2 = 0 then f else f + 1

/-- Python's `round(q, 4)`. -/
def pyRound4 (q : ℚ) : ℚ := (roundHalfEven (q * 10000) : ℚ) / 10000

/-- The estimated load-loss fraction computed in the convergence case of
`snapshot` (before the `round` applied when it is attached): if the total
load is positive, `max(0, (total_load - generation) / total_load)`, else 0. -/
def estLoss (total_load generation : ℚ) : ℚ :=
  if 0 < total_load then max 0 ((total_load - generation) / total_load) else 0

/-- The guardrail reason set in the divergence case of `snapshot`. -/
def divergence_reason : String :=
  "Power flow did not converge (simulator blackout). Auto-containment triggered."

/-- The guardrail reason set in the threshold case of `snapshot`. The Python
f-string formats the two numbers as percentages; here they are rendered with
`toString`. -/
def blast_reason_threshold (est max_loss : ℚ) : String :=
  "Blast radius exceeded: estimated " ++ toString est ++ " load lost (limit "
    ++ toString max_loss ++ ")"

/-- The error message computed in the physics-failure case of `snapshot`:
the snapshot dict's `error` entry when present and truthy (Python's
`snap.get("error")` test, under which the empty string is falsy),
otherwise the blackout default. -/
def divergence_err_msg (snap : Option SolveSnap) : String :=
  match snap with
  | some d =>
      match d.error with
      | some e => if e = "" then "Powerflow failed (Blackout)" else e
      | none => "Powerflow failed (Blackout)"
  | none => "Powerflow failed (Blackout)"

section Snapshot

variable {Net : Type}

/-- The physics-failure branch of `GridController.snapshot` (CASE A).
`exp`, `execution_mode` and `ctx` are the values captured at the top of
`snapshot`; `err_msg` is `divergence_err_msg` of the first solve. If an
experiment is installed with `status == "ACTIVE"` and guardrailed mode, it
trips the guardrail, triggers containment, probes the rolled-back baseline
once and returns the probe when it converges, otherwise the normalized
blackout response with the post-rollback context. Otherwise it returns the
blackout response with the original context and an unchanged state. -/
def snapshot_diverged (eng : SimEngine Net) (s : CtrlState Net)
    (exp : Option Experiment) (execution_mode : String) (ctx : Ctx)
    (err_msg : String) : SnapResponse × CtrlState Net :=
  match exp with
  | some e =>
      if e.status = "ACTIVE" ∧ execution_mode = "guardrailed" then
        let e1 : Experiment :=
          { e with
            blast_radius_triggered := true
            blast_radius_reason := some divergence_reason }
        let es2 := trigger_containment eng { s with active_experiment := some e1 }
          e1 "AUTO_ABORT_ROLLBACK"
        let ctx_after := build_context es2.2 (some es2.1)
        match eng.run_simulation es2.2.net with
        | some p =>
            if p.converged then
              ({ converged := p.converged
                 error := p.error
                 solve_time_ms := some p.solve_time_ms
                 min_voltage_pu := some p.min_voltage_pu
                 total_load_mw := some p.total_load_mw
                 generation_mw := some p.generation_mw
                 context := ctx_after
                 execution_mode := execution_mode
                 estimated_load_loss_pct := none
                 containment_action := es2.1.containment_action
                 blast_radius_triggered := es2.1.blast_radius_triggered
                 blast_radius_reason := es2.1.blast_radius_reason
                 experiment_status := some es2.1.status
                 experiment_phase := some es2.1.phase }, es2.2)
            else
              (build_response false (some err_msg) ctx_after (some es2.1) none, es2.2)
        | none =>
            (build_response false (some err_msg) ctx_after (some es2.1) none, es2.2)
      else
        (build_response false (some err_msg) ctx exp none, s)
  | none => (build_response false (some err_msg) ctx exp none, s)

/-- The convergence branch of `GridController.snapshot` (CASE B), given the
converged snapshot dict `d`. The response starts from `d`'s metrics, gets
the captured context/mode, a `none` loss estimate and the experiment's
persisted containment marker; for an ACTIVE guardrailed experiment the loss
estimate is computed, attached rounded to 4 places, and compared unrounded
against `max_loss`; on breach the guardrail trips and containment runs,
after which the containment marker and context are refreshed while the
metric fields keep the pre-rollback numbers. -/
def snapshot_converged (eng : SimEngine Net) (s : CtrlState Net)
    (exp : Option Experiment) (execution_mode : String) (max_loss : ℚ)
    (ctx : Ctx) (d : SolveSnap) : SnapResponse × CtrlState Net :=
  match exp with
  | some e =>
      if e.status = "ACTIVE" ∧ execution_mode = "guardrailed" then
        let est := estLoss d.total_load_mw d.generation_mw
        if max_loss ≤ est then
          let e1 : Experiment :=
            { e with
              blast_radius_triggered := true
              blast_radius_reason := some (blast_reason_threshold est max_loss) }
          let es2 := trigger_containment eng { s with active_experiment := some e1 }
            e1 "AUTO_ABORT_ROLLBACK"
          ({ converged := d.converged
             error := d.error
             solve_time_ms := some d.solve_time_ms
             min_voltage_pu := some d.min_voltage_pu
             total_load_mw := some d.total_load_mw
             generation_mw := some d.generation_mw
             context := build_context es2.2 (some es2.1)
             execution_mode := execution_mode
             estimated_load_loss_pct := some (pyRound4 est)
             containment_action := es2.1.containment_action
             blast_radius_triggered := es2.1.blast_radius_triggered
             blast_radius_reason := es2.1.blast_radius_reason
             experiment_status := some es2.1.status
             experiment_phase := some es2.1.phase }, es2.2)
        else
          ({ converged := d.converged
             error := d.error
             solve_time_ms := some d.solve_time_ms
             min_voltage_pu := some d.min_voltage_pu
             total_load_mw := some d.total_load_mw
             generation_mw := some d.generation_mw
             context := ctx
             execution_mode := execution_mode
             estimated_load_loss_pct := some (pyRound4 est)
             containment_action := e.containment_action
             blast_radius_triggered := e.blast_radius_triggered
             blast_radius_reason := e.blast_radius_reason
             experiment_status := some e.status
             experiment_phase := some e.phase }, s)
      else
        ({ converged := d.converged
           error := d.error
           solve_time_ms := some d.solve_time_ms
           min_voltage_pu := some d.min_voltage_pu
           total_load_mw := some d.total_load_mw
           generation_mw := some d.generation_mw
           context := ctx
           execution_mode := execution_mode
           estimated_load_loss_pct := none
           containment_action := e.containment_action
           blast_radius_triggered := e.blast_radius_triggered
           blast_radius_reason := e.blast_radius_reason
           experiment_status := some e.status
           experiment_phase := some e.phase }, s)
  | none =>
      ({ converged := d.converged
         error := d.error
         solve_time_ms := some d.solve_time_ms
         min_voltage_pu := some d.min_voltage_pu
         total_load_mw := some d.total_load_mw
         generation_mw := some d.generation_mw
         context := ctx
         execution_mode := execution_mode
         estimated_load_loss_pct := none
         containment_action := none
         blast_radius_triggered := false
         blast_radius_reason := none
         experiment_status := none
         experiment_phase := none }, s)

/-- Embeds `GridController.snapshot`: capture the experiment, context, mode and
threshold; run the simulation; dispatch on physics failure
(`snap is None`, non-dict, or `converged is False`; the non-dict arm cannot
arise under the typed engine) versus success. -/
def snapshot (eng : SimEngine Net) (s : CtrlState Net) :
    SnapResponse × CtrlState Net :=
  let exp := s.active_experiment
  let ctx := build_context s exp
  let execution_mode := match exp with | some e => e.execution_mode | none => "sandbox"
  let max_loss : ℚ := match exp with | some e => e.max_load_loss_pct | none => 1/5
  match eng.run_simulation s.net with
  | none =>
      snapshot_diverged eng s exp execution_mode ctx (divergence_err_msg none)
  | some d =>
      if d.converged = false then
        snapshot_diverged eng s exp execution_mode ctx (divergence_err_msg (some d))
      else
        snapshot_converged eng s exp execution_mode max_loss ctx d

/-- Embeds `GridController.experiment_context`. -/
def experiment_context (s : CtrlState Net) : Ctx :=
  build_context s s.active_experiment

end Snapshot

/-! The parts of `src/chaos.py` the controller claims depend on: the
single-application guard and a representative scenario of the library
(`event_hurricane_ida_flash_flood`). The pandapower frames the scenario
touches are modelled in aggregate. -/

/-- A pandapower network as seen by the scenario library:
`user_pf_options` holds the set of applied chaos keys (the
`chaos_applied` dict; `none` when the attribute is missing or `None`),
`ext_grid_in_service` and `load_p_mw` model `net.ext_grid["in_service"]`
and the `net.load["p_mw"]` column in aggregate. -/
structure PandaNet where
  user_pf_options : Option (List String)
  ext_grid_in_service : Bool
  load_p_mw : ℚ
deriving DecidableEq, Repr

/-- Embeds `chaos._ensure_single_apply`: normalizes a missing `user_pf_options` to
an empty dict, raises `RuntimeError` when the key was already applied,
otherwise records the key. (The Python message wraps the key in quotes;
they are dropped here.) -/
def ensure_single_apply (net : PandaNet) (scenario_key : String) :
    Except PyError Unit × PandaNet :=
  let applied := match net.user_pf_options with | some l => l | none => []
  let net1 := { net with user_pf_options := some applied }
  if scenario_key ∈ applied then
    (.error (.runtimeError
      ("Scenario " ++ scenario_key ++ " already applied to this grid instance.")),
      net1)
  else
    (.ok (), { net1 with user_pf_options := some (applied ++ [scenario_key]) })

/-- Embeds `chaos.event_hurricane_ida_flash_flood`: guard on `"hurricane_ida"`,
then disconnect the external grid and triple the load. -/
def event_hurricane_ida_flash_flood (net : PandaNet) :
    Except PyError Unit × PandaNet :=
  match ensure_single_apply net "hurricane_ida" with
  | (.error e, n) => (.error e, n)
  | (.ok _, n) =>
      (.ok (), { n with ext_grid_in_service := false, load_p_mw := n.load_p_mw * 3 })

section Invariants

variable {Net : Type}

/-- Controller states reachable through the public operations, starting from
a freshly constructed controller. `mutate` steps allow an arbitrary mutation
function (its return value does not influence the state, so `Unit`-valued
functions cover every state effect). -/
inductive Reachable (eng : SimEngine Net) : CtrlState Net → Prop where
  | init : Reachable eng (initState eng)
  | reset_step (s : CtrlState Net) :
      Reachable eng s → Reachable eng (reset eng s)
  | begin_step (scenario notes mode : String) (maxl : ℚ) (now : Nat)
      (s : CtrlState Net) :
      Reachable eng s →
      Reachable eng (begin_experiment scenario notes mode maxl now s).2
  | set_phase_step (phase : String) (s : CtrlState Net) :
      Reachable eng s → Reachable eng (set_phase phase s)
  | end_step (s : CtrlState Net) :
      Reachable eng s → Reachable eng (end_experiment s)
  | mutate_step (fn : Net → Except PyError Unit × Net) (src : String)
      (s : CtrlState Net) :
      Reachable eng s → Reachable eng (mutate fn src s).2
  | snapshot_step (s : CtrlState Net) :
      Reachable eng s → Reachable eng (snapshot eng s).2

/-- Record invariant: a tripped blast-radius guardrail comes with a
containment marker and an ended experiment. -/
def ExpInv (e : Experiment) : Prop :=
  e.blast_radius_triggered = true →
    e.containment_action ≠ none ∧ e.status = "ENDED"

/-- State invariant: the installed experiment (if any) satisfies `ExpInv`,
and the current `simulation_id` was drawn from the uuid counter (so any
future draw is distinct from it). -/
def StateInv (s : CtrlState Net) : Prop :=
  (∀ e, s.active_experiment = some e → ExpInv e) ∧
    s.simulation_id < s.uuid_ctr

/-- The state component of `snapshot`: either untouched, or the result of
containment — baseline network, the surviving experiment marked
contained/ended, a fresh `simulation_id`, `last_mutation_source`
rollback. -/
theorem snapshot_state_eq (eng : SimEngine Net) (s : CtrlState Net) :
    (snapshot eng s).2 = s ∨
    ∃ e' : Experiment,
      (snapshot eng s).2 =
        { s with
          net := eng.create_grid
          active_experiment := some e'
          simulation_id := s.uuid_ctr
          last_mutation_source := "rollback"
          uuid_ctr := s.uuid_ctr + 1 } ∧
      e'.containment_action = some "AUTO_ABORT_ROLLBACK" ∧ e'.status = "ENDED" := by
  unfold snapshot snapshot_diverged snapshot_converged trigger_containment rollback
  simp only []
  repeat' first
    | exact Or.inl rfl
    | exact Or.inr ⟨_, rfl, rfl, rfl⟩
    | split

/-- Every reachable controller state satisfies `StateInv`. -/
theorem reachable_stateInv (eng : SimEngine Net) (s : CtrlState Net)
    (h : Reachable eng s) : StateInv s := by
  induction h with
  | init =>
      exact ⟨fun e he => by simp [initState] at he, by simp [initState]⟩
  | reset_step s hs ih =>
      exact ⟨fun e he => by simp [reset] at he, by simp [reset]⟩
  | begin_step scenario notes mode maxl now s hs ih =>
      unfold begin_experiment
      split
      · exact ih
      · split
        · refine ⟨fun e he => ?_, Nat.lt_succ_of_lt ih.2⟩
          have he' : some (new_experiment scenario notes mode maxl now s.uuid_ctr)
              = some e := he
          injection he' with he''
          subst he''
          intro hb
          simp [new_experiment] at hb
        · exact ih
  | set_phase_step phase s hs ih =>
      unfold set_phase
      split
      · rename_i e heq
        split
        · rename_i hst
          refine ⟨fun e' he' => ?_, ih.2⟩
          have he'' : some ({ e with phase := phase } : Experiment) = some e' := he'
          injection he'' with h3
          subst h3
          intro hb
          rcases (ih.1 e heq) hb with ⟨hca, hse⟩
          rw [hst] at hse
          exact absurd hse (by decide)
        · exact ih
      · exact ih
  | end_step s hs ih =>
      unfold end_experiment
      split
      · rename_i e heq
        refine ⟨fun e' he' => ?_, ih.2⟩
        have he'' : some ({ e with status := "ENDED", phase := "recovery" } : Experiment)
            = some e' := he'
        injection he'' with h3
        subst h3
        intro hb
        rcases (ih.1 e heq) hb with ⟨hca, _⟩
        exact ⟨hca, rfl⟩
      · rename_i heq
        refine ⟨fun e he => ?_, ih.2⟩
        have he2 : s.active_experiment = some e := he
        rw [heq] at he2
        cases he2
  | mutate_step fn src s hs ih =>
      exact ⟨fun e he => ih.1 e he, ih.2⟩
  | snapshot_step s hs ih =>
      rcases snapshot_state_eq eng s with heq | ⟨e', heq, hca, hst⟩
      · rw [heq]; exact ih
      · rw [heq]
        refine ⟨fun e he => ?_, Nat.lt_succ_self _⟩
        have he' : some e' = some e := he
        injection he' with h3
        subst h3
        intro _
        exact ⟨by simp [hca], hst⟩

end Invariants

/-! Concrete fixtures used by the witness theorems: small engines over
`Net := Nat` where network `0` is the baseline and other values stand for
chaos-mutated grids. -/

/-- A healthy converged solve: generation covers the load. -/
def okSnap : SolveSnap :=
  { converged := true, solve_time_ms := 1, min_voltage_pu := 101/100,
    total_load_mw := 100, generation_mw := 100 }

/-- A converged solve with 30 percent of the load unserved. -/
def lossSnap : SolveSnap :=
  { converged := true, solve_time_ms := 1, min_voltage_pu := 9/10,
    total_load_mw := 100, generation_mw := 70 }

/-- Engine whose baseline converges and every other network diverges. -/
def engDiv : SimEngine Nat :=
  { create_grid := 0,
    run_simulation := fun n => if n = 0 then some okSnap else none }

/-- Engine whose baseline converges and every other network yields the
lossy solve. -/
def engLoss : SimEngine Nat :=
  { create_grid := 0,
    run_simulation := fun n => if n = 0 then some okSnap else some lossSnap }

/-- An ACTIVE guardrailed experiment with the default 20 percent limit. -/
def expGuard : Experiment :=
  { experiment_id := 1, scenario := "hurricane_ida", phase := "chaos",
    started_at_ns := 0, status := "ACTIVE", execution_mode := "guardrailed" }

/-- An ACTIVE sandbox experiment. -/
def expSandbox : Experiment :=
  { expGuard with execution_mode := "sandbox" }

/-- Controller state on the mutated network with the guardrailed experiment. -/
def stGuard : CtrlState Nat :=
  { net := 1, active_experiment := some expGuard, simulation_id := 0,
    last_mutation_source := "scenario", uuid_ctr := 2 }

/-- Controller state on the mutated network with the sandbox experiment. -/
def stSandbox : CtrlState Nat :=
  { stGuard with active_experiment := some expSandbox }

/-- A freshly initialized controller state with no experiment. -/
def stIdle : CtrlState Nat :=
  { net := 0, active_experiment := none, simulation_id := 0,
    last_mutation_source := "init", uuid_ctr := 1 }

section Claims

variable {Net : Type}

/-- C2: with no active experiment or a sandbox-mode active experiment, a
snapshot whose solve fails or reports non-convergence returns the
normalized `converged=false` response annotated with the current context,
and the controller state is unchanged (so no containment happens). -/
theorem C2_sandbox_divergence_frame (eng : SimEngine Net) (s : CtrlState Net)
    (hmode : ∀ e, s.active_experiment = some e → e.status = "ACTIVE" →
      e.execution_mode = "sandbox")
    (hfail : eng.run_simulation s.net = none ∨
      ∃ d, eng.run_simulation s.net = some d ∧ d.converged = false) :
    (snapshot eng s).2 = s ∧
    (snapshot eng s).1 =
      build_response false (some (divergence_err_msg (eng.run_simulation s.net)))
        (build_context s s.active_experiment) s.active_experiment none := by
  have hng : ∀ e, s.active_experiment = some e →
      ¬(e.status = "ACTIVE" ∧ e.execution_mode = "guardrailed") := by
    intro e he hc
    have h3 := hmode e he hc.1
    rw [h3] at hc
    exact absurd hc.2 (by decide)
  rcases hfail with hrun | ⟨d, hrun, hconv⟩
  · cases hexp : s.active_experiment with
    | none =>
        simp only [snapshot, hrun, hexp, snapshot_diverged]
        exact ⟨by trivial, by trivial⟩
    | some e =>
        simp only [snapshot, hrun, hexp, snapshot_diverged, if_neg (hng e hexp)]
        exact ⟨by trivial, by trivial⟩
  · cases hexp : s.active_experiment with
    | none =>
        simp only [snapshot, hrun, hconv, if_true, hexp, snapshot_diverged]
        exact ⟨by trivial, by trivial⟩
    | some e =>
        simp only [snapshot, hrun, hconv, if_true, hexp, snapshot_diverged,
          if_neg (hng e hexp)]
        exact ⟨by trivial, by trivial⟩

/-- C2 witness: sandbox experiment, diverging solve. -/
theorem C2_witness :
    (snapshot engDiv stSandbox).2 = stSandbox ∧
    (snapshot engDiv stSandbox).1 =
      build_response false (some (divergence_err_msg (engDiv.run_simulation stSandbox.net)))
        (build_context stSandbox stSandbox.active_experiment)
        stSandbox.active_experiment none :=
  C2_sandbox_divergence_frame engDiv stSandbox
    (by
      intro e he hst
      have he' : some expSandbox = some e := he
      injection he' with h
      subst h
      rfl)
    (Or.inl rfl)

/-- C3: `begin_experiment` raises the conflict `RuntimeError` and leaves the
state unchanged whenever an ACTIVE experiment is installed; with no active
experiment it raises the validation `ValueError` (unchanged state) when the
mode is unrecognized, and otherwise installs the freshly created experiment
(phase `baseline`, status `ACTIVE`) as the sole active experiment, tags
`last_mutation_source = "scenario"`, and returns the record. -/
theorem C3_begin_experiment_spec (eng : SimEngine Net) (s : CtrlState Net)
    (scenario notes mode : String) (maxl : ℚ) (now : Nat) :
    (∀ e, s.active_experiment = some e → e.status = "ACTIVE" →
      begin_experiment scenario notes mode maxl now s =
        (.error (.runtimeError
          "An experiment is already active. End it before starting a new one."), s)) ∧
    (hasActive s = false → ¬(mode = "sandbox" ∨ mode = "guardrailed") →
      begin_experiment scenario notes mode maxl now s =
        (.error (.valueError "execution_mode must be sandbox or guardrailed"), s)) ∧
    (hasActive s = false → (mode = "sandbox" ∨ mode = "guardrailed") →
      begin_experiment scenario notes mode maxl now s =
        (.ok (new_experiment scenario notes mode maxl now s.uuid_ctr),
         { s with
           active_experiment :=
             some (new_experiment scenario notes mode maxl now s.uuid_ctr),
           last_mutation_source := "scenario",
           uuid_ctr := s.uuid_ctr + 1 })) ∧
    (new_experiment scenario notes mode maxl now s.uuid_ctr).phase = "baseline" ∧
    (new_experiment scenario notes mode maxl now s.uuid_ctr).status = "ACTIVE" := by
  refine ⟨?_, ?_, ?_, rfl, rfl⟩
  · intro e he hst
    have hact : hasActive s = true := by
      simp [hasActive, he, hst]
    unfold begin_experiment
    rw [hact]
    simp
  · intro hact hmode
    unfold begin_experiment
    rw [hact]
    simp only [Bool.false_eq_true, if_false, if_neg hmode]
  · intro hact hmode
    unfold begin_experiment
    rw [hact]
    simp only [Bool.false_eq_true, if_false, if_pos hmode]

/-- C3 witness: conflict on an active experiment, and success from an
idle state. -/
theorem C3_witness :
    (begin_experiment "sandy_2012" "" "guardrailed" (1/5) 7 stGuard =
      (.error (.runtimeError
        "An experiment is already active. End it before starting a new one."), stGuard)) ∧
    (begin_experiment "sandy_2012" "" "guardrailed" (1/5) 7 (initState engDiv) =
      (.ok (new_experiment "sandy_2012" "" "guardrailed" (1/5) 7 1),
       { initState engDiv with
         active_experiment := some (new_experiment "sandy_2012" "" "guardrailed" (1/5) 7 1),
         last_mutation_source := "scenario",
         uuid_ctr := 2 })) :=
  ⟨(C3_begin_experiment_spec engDiv stGuard "sandy_2012" "" "guardrailed" (1/5) 7).1
      expGuard rfl rfl,
   (C3_begin_experiment_spec engDiv (initState engDiv) "sandy_2012" "" "guardrailed"
      (1/5) 7).2.2.1 rfl (Or.inr rfl)⟩

/-- C7 counterexample: with no experiment installed and
`last_mutation_source = "init"`, `end_experiment` is not a no-op — it
overwrites `last_mutation_source` with `"end_experiment"` (the assignment
sits outside the `if` in the source). -/
theorem C7_counterexample :
    (end_experiment stIdle).last_mutation_source = "end_experiment" ∧
    stIdle.last_mutation_source = "init" ∧
    stIdle.active_experiment = none ∧
    end_experiment stIdle ≠ stIdle := by
  refine ⟨rfl, rfl, rfl, ?_⟩
  decide

/-- C7 amended: `end_experiment` always sets
`last_mutation_source = "end_experiment"`; apart from that it changes
nothing when no experiment is installed, and when one is installed it sets
that experiment's status to ENDED and phase to recovery; the network
handle, `simulation_id` and the uuid counter are never touched. -/
theorem C7_end_experiment_amended (s : CtrlState Net) :
    (end_experiment s).net = s.net ∧
    (end_experiment s).simulation_id = s.simulation_id ∧
    (end_experiment s).uuid_ctr = s.uuid_ctr ∧
    (end_experiment s).last_mutation_source = "end_experiment" ∧
    (s.active_experiment = none → (end_experiment s).active_experiment = none) ∧
    (∀ e, s.active_experiment = some e →
      (end_experiment s).active_experiment =
        some { e with status := "ENDED", phase := "recovery" }) := by
  unfold end_experiment
  cases hexp : s.active_experiment with
  | none =>
      refine ⟨rfl, rfl, rfl, rfl, fun _ => rfl, fun e he => ?_⟩
      cases he
  | some e =>
      refine ⟨rfl, rfl, rfl, rfl, fun hn => ?_, fun e' he' => ?_⟩
      · cases hn
      · injection he' with h
        subst h
        rfl

/-- C7 amended witness: ending an active experiment. -/
theorem C7_amended_witness :
    (end_experiment stGuard).net = stGuard.net ∧
    (end_experiment stGuard).active_experiment =
      some { expGuard with status := "ENDED", phase := "recovery" } :=
  ⟨(C7_end_experiment_amended stGuard).1,
   (C7_end_experiment_amended stGuard).2.2.2.2.2 expGuard rfl⟩

/-- C9: `reset` always succeeds: baseline network, active experiment
discarded, `last_mutation_source = "reset"`, and a `simulation_id` distinct
from the previous one; a second consecutive `reset` again yields a distinct
`simulation_id`, and both leave no experiment and a baseline network. -/
theorem C9_reset_spec (eng : SimEngine Net) (s : CtrlState Net)
    (h : Reachable eng s) :
    (reset eng s).net = eng.create_grid ∧
    (reset eng s).active_experiment = none ∧
    (reset eng s).last_mutation_source = "reset" ∧
    (reset eng s).simulation_id ≠ s.simulation_id ∧
    (reset eng (reset eng s)).simulation_id ≠ (reset eng s).simulation_id ∧
    (reset eng (reset eng s)).active_experiment = none ∧
    (reset eng (reset eng s)).net = eng.create_grid := by
  have hid : s.simulation_id < s.uuid_ctr := (reachable_stateInv eng s h).2
  refine ⟨rfl, rfl, rfl, ?_, ?_, rfl, rfl⟩
  · show s.uuid_ctr ≠ s.simulation_id
    omega
  · show s.uuid_ctr + 1 ≠ s.uuid_ctr
    omega

/-- C9 witness: two resets from a fresh controller. -/
theorem C9_witness :
    (reset engDiv (initState engDiv)).simulation_id ≠ (initState engDiv).simulation_id ∧
    (reset engDiv (reset engDiv (initState engDiv))).simulation_id ≠
      (reset engDiv (initState engDiv)).simulation_id ∧
    (reset engDiv (reset engDiv (initState engDiv))).active_experiment = none ∧
    (reset engDiv (reset engDiv (initState engDiv))).net = engDiv.create_grid :=
  ⟨(C9_reset_spec engDiv (initState engDiv) Reachable.init).2.2.2.1,
   (C9_reset_spec engDiv (initState engDiv) Reachable.init).2.2.2.2.1,
   (C9_reset_spec engDiv (initState engDiv) Reachable.init).2.2.2.2.2.1,
   (C9_reset_spec engDiv (initState engDiv) Reachable.init).2.2.2.2.2.2⟩

/-- Failing `mutate` calls leave the state as the mutation function left the
network, except that `last_mutation_source` was already overwritten (it is
assigned before `fn` runs in the source). -/
theorem mutate_error_eq {N α : Type} (fn : N → Except PyError α × N)
    (src : String) (s : CtrlState N) (err : PyError) (n : N)
    (h : fn s.net = (.error err, n)) :
    mutate fn src s = (.error err, { s with net := n, last_mutation_source := src }) := by
  simp only [mutate]
  rw [h]

/-- Re-applying the hurricane scenario to a grid that already carries its
applied-marker raises the single-application guard and leaves the network
unchanged. -/
theorem hurricane_already_applied (net : PandaNet) (opts : List String)
    (h : net.user_pf_options = some opts) (hm : "hurricane_ida" ∈ opts) :
    event_hurricane_ida_flash_flood net =
      (.error (.runtimeError
        "Scenario hurricane_ida already applied to this grid instance."), net) := by
  obtain ⟨o, ex, ld⟩ := net
  simp only at h
  subst h
  simp [event_hurricane_ida_flash_flood, ensure_single_apply, hm]

/-- A grid that already carries the hurricane scenario's applied-marker. -/
def appliedNet : PandaNet :=
  { user_pf_options := some ["hurricane_ida"], ext_grid_in_service := true,
    load_p_mw := 10 }

/-- Controller state holding `appliedNet` with pristine bookkeeping. -/
def stApplied : CtrlState PandaNet :=
  { net := appliedNet, active_experiment := none, simulation_id := 0,
    last_mutation_source := "init", uuid_ctr := 1 }

/-- C6 counterexample: re-applying an already-applied scenario through
`mutate` propagates the guard's `RuntimeError` and leaves the network
untouched, but the controller state is NOT exactly as before the call:
`last_mutation_source` has been overwritten with the mutation source. -/
theorem C6_counterexample :
    (mutate event_hurricane_ida_flash_flood "scenario" stApplied).1 =
      .error (.runtimeError
        "Scenario hurricane_ida already applied to this grid instance.") ∧
    (mutate event_hurricane_ida_flash_flood "scenario" stApplied).2.net =
      stApplied.net ∧
    (mutate event_hurricane_ida_flash_flood "scenario" stApplied).2.last_mutation_source
      = "scenario" ∧
    stApplied.last_mutation_source = "init" ∧
    (mutate event_hurricane_ida_flash_flood "scenario" stApplied).2 ≠ stApplied := by
  refine ⟨rfl, rfl, rfl, rfl, ?_⟩
  decide

/-- C6 amended: when the mutation function fails, `mutate` propagates the
failure unchanged and the final state keeps the network exactly as the
function left it with every other field unchanged — except
`last_mutation_source`, which is set to the given source before the
function runs, even on failure. In particular, re-applying a scenario whose
single-application guard fires leaves the network itself unchanged. -/
theorem C6_mutate_amended :
    (∀ (N α : Type) (fn : N → Except PyError α × N) (src : String)
        (s : CtrlState N) (err : PyError) (n : N),
      fn s.net = (.error err, n) →
      mutate fn src s =
        (.error err, { s with net := n, last_mutation_source := src })) ∧
    (∀ (s : CtrlState PandaNet) (opts : List String),
      s.net.user_pf_options = some opts → "hurricane_ida" ∈ opts →
      mutate event_hurricane_ida_flash_flood "scenario" s =
        (.error (.runtimeError
          "Scenario hurricane_ida already applied to this grid instance."),
         { s with last_mutation_source := "scenario" })) := by
  refine ⟨fun N α fn src s err n h => mutate_error_eq fn src s err n h, ?_⟩
  intro s opts hopt hmem
  exact mutate_error_eq event_hurricane_ida_flash_flood "scenario" s _ _
    (hurricane_already_applied s.net opts hopt hmem)

/-- C6 amended witness: the guard-firing call evaluated on the concrete
already-applied state. -/
theorem C6_amended_witness :
    mutate event_hurricane_ida_flash_flood "scenario" stApplied =
      (.error (.runtimeError
        "Scenario hurricane_ida already applied to this grid instance."),
       { stApplied with last_mutation_source := "scenario" }) :=
  C6_mutate_amended.2 stApplied ["hurricane_ida"] rfl (by decide)

/-- C4: on a converged solve, the response's estimated load-loss field is
the 4-decimal rounding of `estLoss` (which is
`max(0, (totalLoad - generation) / totalLoad)` for positive load and `0`
otherwise) exactly when an ACTIVE guardrailed experiment is installed, and
absent (`none`) in sandbox mode or with no active experiment. -/
theorem C4_estimated_loss_attachment (eng : SimEngine Net) (s : CtrlState Net)
    (d : SolveSnap) (hrun : eng.run_simulation s.net = some d)
    (hconv : d.converged = true) :
    (snapshot eng s).1.estimated_load_loss_pct =
      match s.active_experiment with
      | some e =>
          if e.status = "ACTIVE" ∧ e.execution_mode = "guardrailed" then
            some (pyRound4 (estLoss d.total_load_mw d.generation_mw))
          else none
      | none => none := by
  have hne : ¬(d.converged = false) := by
    rw [hconv]
    decide
  cases hexp : s.active_experiment with
  | none =>
      simp only [snapshot, hrun, if_neg hne, hexp, snapshot_converged]
  | some e =>
      by_cases hg : e.status = "ACTIVE" ∧ e.execution_mode = "guardrailed"
      · by_cases hl :
          e.max_load_loss_pct ≤ estLoss d.total_load_mw d.generation_mw
        · simp only [snapshot, hrun, if_neg hne, hexp, snapshot_converged,
            if_pos hg, if_pos hl]
        · simp only [snapshot, hrun, if_neg hne, hexp, snapshot_converged,
            if_pos hg, if_neg hl]
      · simp only [snapshot, hrun, if_neg hne, hexp, snapshot_converged,
          if_neg hg]

/-- C4 witness: guardrailed experiment sees the rounded loss estimate; the
same solve under a sandbox experiment reports it as absent. -/
theorem C4_witness :
    (snapshot engLoss stGuard).1.estimated_load_loss_pct = some (3/10) ∧
    (snapshot engLoss stSandbox).1.estimated_load_loss_pct = none := by
  have hg := C4_estimated_loss_attachment engLoss stGuard lossSnap rfl rfl
  have hs := C4_estimated_loss_attachment engLoss stSandbox lossSnap rfl rfl
  constructor
  · have h1 : (snapshot engLoss stGuard).1.estimated_load_loss_pct =
        some (pyRound4 (estLoss lossSnap.total_load_mw lossSnap.generation_mw)) :=
      hg.trans rfl
    rw [h1]
    norm_num [pyRound4, roundHalfEven, estLoss, lossSnap]
  · exact hs.trans rfl

/-- C5: on a converged solve with an ACTIVE guardrailed experiment whose
(unrounded) loss estimate reaches `max_load_loss_pct`, `snapshot` trips the
guardrail with the threshold reason and performs containment; the returned
response keeps the pre-rollback metrics and loss estimate while its
containment marker, experiment status/phase and context reflect the
post-rollback experiment and lineage. -/
theorem C5_threshold_containment (eng : SimEngine Net) (s : CtrlState Net)
    (e : Experiment) (d : SolveSnap)
    (hexp : s.active_experiment = some e) (hst : e.status = "ACTIVE")
    (hmode : e.execution_mode = "guardrailed")
    (hrun : eng.run_simulation s.net = some d) (hconv : d.converged = true)
    (hl : e.max_load_loss_pct ≤ estLoss d.total_load_mw d.generation_mw) :
    (snapshot eng s).1 =
      { converged := d.converged
        error := d.error
        context :=
          { experiment_id := some e.experiment_id, scenario := e.scenario,
            phase := "recovery", simulation_id := s.uuid_ctr,
            mutation_source := "rollback" }
        execution_mode := "guardrailed"
        estimated_load_loss_pct :=
          some (pyRound4 (estLoss d.total_load_mw d.generation_mw))
        containment_action := some "AUTO_ABORT_ROLLBACK"
        blast_radius_triggered := true
        blast_radius_reason :=
          some (blast_reason_threshold (estLoss d.total_load_mw d.generation_mw)
            e.max_load_loss_pct)
        experiment_status := some "ENDED"
        experiment_phase := some "recovery"
        solve_time_ms := some d.solve_time_ms
        min_voltage_pu := some d.min_voltage_pu
        total_load_mw := some d.total_load_mw
        generation_mw := some d.generation_mw } ∧
    (snapshot eng s).2 =
      { s with
        net := eng.create_grid
        active_experiment := some
          { e with
            blast_radius_triggered := true
            blast_radius_reason :=
              some (blast_reason_threshold (estLoss d.total_load_mw d.generation_mw)
                e.max_load_loss_pct)
            containment_action := some "AUTO_ABORT_ROLLBACK"
            status := "ENDED"
            phase := "recovery" }
        simulation_id := s.uuid_ctr
        last_mutation_source := "rollback"
        uuid_ctr := s.uuid_ctr + 1 } := by
  have hne : ¬(d.converged = false) := by
    rw [hconv]
    decide
  simp only [snapshot, hrun, if_neg hne, hexp, snapshot_converged]
  rw [if_pos (show e.status = "ACTIVE" ∧ e.execution_mode = "guardrailed" from
        ⟨hst, hmode⟩), if_pos hl]
  simp only [trigger_containment, rollback, build_context, hmode]
  exact ⟨by trivial, by trivial⟩

/-- C5 witness: the lossy engine under the guardrailed experiment. -/
theorem C5_witness :
    (snapshot engLoss stGuard).1.containment_action = some "AUTO_ABORT_ROLLBACK" ∧
    (snapshot engLoss stGuard).1.total_load_mw = some 100 ∧
    (snapshot engLoss stGuard).1.generation_mw = some 70 ∧
    (snapshot engLoss stGuard).1.estimated_load_loss_pct = some (3/10) ∧
    (snapshot engLoss stGuard).2.net = 0 ∧
    (snapshot engLoss stGuard).2.last_mutation_source = "rollback" := by
  have h := C5_threshold_containment engLoss stGuard expGuard lossSnap
    rfl rfl rfl rfl rfl (by norm_num [expGuard, estLoss, lossSnap])
  rw [h.1, h.2]
  refine ⟨rfl, rfl, rfl, ?_, rfl, rfl⟩
  norm_num [pyRound4, roundHalfEven, estLoss, lossSnap]

/-- The experiment record after the divergence-path guardrail has tripped
and containment has run: blast radius marked with the divergence reason,
containment marker set, status ENDED, phase recovery. -/
def containedDivExp (e : Experiment) : Experiment :=
  { e with
    blast_radius_triggered := true
    blast_radius_reason := some divergence_reason
    containment_action := some "AUTO_ABORT_ROLLBACK"
    status := "ENDED"
    phase := "recovery" }

/-- C1: with an ACTIVE guardrailed experiment, a failing or non-converging
solve makes `snapshot` trip the guardrail with the divergence reason and
perform containment (experiment marked/ended, baseline network, fresh
lineage id, rollback source); the engine is then re-invoked once on the
rolled-back network: if that probe converges its snapshot is returned
annotated with the post-rollback context and experiment fields, and if it
also fails the normalized `converged=false` response with the post-rollback
context is returned instead. -/
theorem C1_guardrailed_divergence_containment (eng : SimEngine Net)
    (s : CtrlState Net) (e : Experiment)
    (hexp : s.active_experiment = some e) (hst : e.status = "ACTIVE")
    (hmode : e.execution_mode = "guardrailed")
    (hfail : eng.run_simulation s.net = none ∨
      ∃ d, eng.run_simulation s.net = some d ∧ d.converged = false) :
    (snapshot eng s).2 =
      { s with
        net := eng.create_grid
        active_experiment := some (containedDivExp e)
        simulation_id := s.uuid_ctr
        last_mutation_source := "rollback"
        uuid_ctr := s.uuid_ctr + 1 } ∧
    (∀ p, eng.run_simulation eng.create_grid = some p → p.converged = true →
      (snapshot eng s).1 =
        { converged := p.converged
          error := p.error
          context :=
            { experiment_id := some e.experiment_id, scenario := e.scenario,
              phase := "recovery", simulation_id := s.uuid_ctr,
              mutation_source := "rollback" }
          execution_mode := "guardrailed"
          estimated_load_loss_pct := none
          containment_action := some "AUTO_ABORT_ROLLBACK"
          blast_radius_triggered := true
          blast_radius_reason := some divergence_reason
          experiment_status := some "ENDED"
          experiment_phase := some "recovery"
          solve_time_ms := some p.solve_time_ms
          min_voltage_pu := some p.min_voltage_pu
          total_load_mw := some p.total_load_mw
          generation_mw := some p.generation_mw }) ∧
    ((eng.run_simulation eng.create_grid = none ∨
      ∃ p, eng.run_simulation eng.create_grid = some p ∧ p.converged = false) →
      (snapshot eng s).1 =
        build_response false (some (divergence_err_msg (eng.run_simulation s.net)))
          { experiment_id := some e.experiment_id, scenario := e.scenario,
            phase := "recovery", simulation_id := s.uuid_ctr,
            mutation_source := "rollback" }
          (some (containedDivExp e)) none) := by
  have hcond : e.status = "ACTIVE" ∧ e.execution_mode = "guardrailed" := ⟨hst, hmode⟩
  have step : ∀ msg : String,
      (snapshot_diverged eng s (some e) e.execution_mode (build_context s (some e))
          msg).2 =
        { s with
          net := eng.create_grid
          active_experiment := some (containedDivExp e)
          simulation_id := s.uuid_ctr
          last_mutation_source := "rollback"
          uuid_ctr := s.uuid_ctr + 1 } ∧
      (∀ p, eng.run_simulation eng.create_grid = some p → p.converged = true →
        (snapshot_diverged eng s (some e) e.execution_mode (build_context s (some e))
            msg).1 =
          { converged := p.converged
            error := p.error
            context :=
              { experiment_id := some e.experiment_id, scenario := e.scenario,
                phase := "recovery", simulation_id := s.uuid_ctr,
                mutation_source := "rollback" }
            execution_mode := "guardrailed"
            estimated_load_loss_pct := none
            containment_action := some "AUTO_ABORT_ROLLBACK"
            blast_radius_triggered := true
            blast_radius_reason := some divergence_reason
            experiment_status := some "ENDED"
            experiment_phase := some "recovery"
            solve_time_ms := some p.solve_time_ms
            min_voltage_pu := some p.min_voltage_pu
            total_load_mw := some p.total_load_mw
            generation_mw := some p.generation_mw }) ∧
      ((eng.run_simulation eng.create_grid = none ∨
        ∃ p, eng.run_simulation eng.create_grid = some p ∧ p.converged = false) →
        (snapshot_diverged eng s (some e) e.execution_mode (build_context s (some e))
            msg).1 =
          build_response false (some msg)
            { experiment_id := some e.experiment_id, scenario := e.scenario,
              phase := "recovery", simulation_id := s.uuid_ctr,
              mutation_source := "rollback" }
            (some (containedDivExp e)) none) := by
    intro msg
    simp only [snapshot_diverged]
    rw [if_pos hcond]
    simp only [trigger_containment, rollback, build_context, containedDivExp, hmode]
    obtain hnone | ⟨p, hp⟩ : eng.run_simulation eng.create_grid = none ∨
        ∃ p, eng.run_simulation eng.create_grid = some p := by
      cases eng.run_simulation eng.create_grid
      · exact Or.inl rfl
      · exact Or.inr ⟨_, rfl⟩
    · simp only [hnone]
      exact ⟨by trivial, fun p2 hp2 _ => absurd hp2 (by simp),
        fun _ => by trivial⟩
    · rcases Bool.dichotomy p.converged with hc | hc
      · simp only [hp, hc]
        refine ⟨by trivial, ?_, fun _ => by trivial⟩
        intro p2 hp2 hc2
        injection hp2 with h
        subst h
        rw [hc] at hc2
        cases hc2
      · simp only [hp, hc]
        refine ⟨by trivial, ?_, ?_⟩
        · intro p2 hp2 hc2
          injection hp2 with h
          subst h
          rw [hc2]
          trivial
        · intro hcontra
          rcases hcontra with h0 | ⟨p3, hp3, hc3⟩
          · cases h0
          · injection hp3 with h
            subst h
            rw [hc] at hc3
            cases hc3
  rcases hfail with hrun | ⟨d, hrun, hcv⟩
  · have hmain : snapshot eng s =
        snapshot_diverged eng s (some e) e.execution_mode (build_context s (some e))
          (divergence_err_msg (eng.run_simulation s.net)) := by
      simp only [snapshot, hrun, hexp]
    rw [hmain]
    exact step (divergence_err_msg (eng.run_simulation s.net))
  · have hmain : snapshot eng s =
        snapshot_diverged eng s (some e) e.execution_mode (build_context s (some e))
          (divergence_err_msg (eng.run_simulation s.net)) := by
      simp only [snapshot, hrun, hcv, if_true, hexp]
    rw [hmain]
    exact step (divergence_err_msg (eng.run_simulation s.net))

/-- C1 witness: diverging solve in guardrailed mode; the post-rollback probe
converges and its snapshot is returned with the post-rollback context. -/
theorem C1_witness :
    (snapshot engDiv stGuard).2 =
      { stGuard with
        net := 0
        active_experiment := some (containedDivExp expGuard)
        simulation_id := 2
        last_mutation_source := "rollback"
        uuid_ctr := 3 } ∧
    (snapshot engDiv stGuard).1 =
      { converged := okSnap.converged
        error := okSnap.error
        context :=
          { experiment_id := some expGuard.experiment_id,
            scenario := expGuard.scenario, phase := "recovery",
            simulation_id := 2, mutation_source := "rollback" }
        execution_mode := "guardrailed"
        estimated_load_loss_pct := none
        containment_action := some "AUTO_ABORT_ROLLBACK"
        blast_radius_triggered := true
        blast_radius_reason := some divergence_reason
        experiment_status := some "ENDED"
        experiment_phase := some "recovery"
        solve_time_ms := some okSnap.solve_time_ms
        min_voltage_pu := some okSnap.min_voltage_pu
        total_load_mw := some okSnap.total_load_mw
        generation_mw := some okSnap.generation_mw } := by
  have h := C1_guardrailed_divergence_containment engDiv stGuard expGuard
    rfl rfl rfl (Or.inl rfl)
  exact ⟨h.1, h.2.1 okSnap rfl rfl⟩

/-- Field characterization of a converged guardrailed snapshot: the loss
estimate is attached rounded, while the containment marker, guardrail flag
and experiment status depend on the unrounded estimate reaching the
threshold. -/
theorem snapshot_guard_converged_fields (eng : SimEngine Net)
    (s : CtrlState Net) (e : Experiment) (d : SolveSnap)
    (hexp : s.active_experiment = some e) (hst : e.status = "ACTIVE")
    (hmode : e.execution_mode = "guardrailed")
    (hrun : eng.run_simulation s.net = some d) (hconv : d.converged = true) :
    (snapshot eng s).1.estimated_load_loss_pct =
      some (pyRound4 (estLoss d.total_load_mw d.generation_mw)) ∧
    (snapshot eng s).1.containment_action =
      (if e.max_load_loss_pct ≤ estLoss d.total_load_mw d.generation_mw
       then some "AUTO_ABORT_ROLLBACK" else e.containment_action) ∧
    (snapshot eng s).1.blast_radius_triggered =
      (if e.max_load_loss_pct ≤ estLoss d.total_load_mw d.generation_mw
       then true else e.blast_radius_triggered) ∧
    (snapshot eng s).1.experiment_status =
      (if e.max_load_loss_pct ≤ estLoss d.total_load_mw d.generation_mw
       then some "ENDED" else some e.status) := by
  have hne : ¬(d.converged = false) := by
    rw [hconv]
    decide
  have hcond : e.status = "ACTIVE" ∧ e.execution_mode = "guardrailed" :=
    ⟨hst, hmode⟩
  by_cases hl : e.max_load_loss_pct ≤ estLoss d.total_load_mw d.generation_mw
  · simp only [snapshot, hrun, if_neg hne, hexp, snapshot_converged,
      if_pos hcond, if_pos hl, trigger_containment, rollback]
    exact ⟨by trivial, by trivial, by trivial, by trivial⟩
  · simp only [snapshot, hrun, if_neg hne, hexp, snapshot_converged,
      if_pos hcond, if_neg hl]
    exact ⟨by trivial, by trivial, by trivial, by trivial⟩

/-- Engine whose every solve is the lossy converged snapshot. -/
def engLossAll : SimEngine Nat :=
  { create_grid := 0, run_simulation := fun _ => some lossSnap }

/-- State reached by beginning a guardrailed experiment on a fresh
controller driven by `engLossAll`. -/
def stC8 : CtrlState Nat :=
  (begin_experiment "sandy_2012" "" "guardrailed" (1/5) 0 (initState engLossAll)).2

/-- C8: for every reachable controller state, a snapshot response with
`blast_radius_triggered = true` carries a non-null containment marker and
experiment status ENDED. -/
theorem C8_blast_implies_contained (eng : SimEngine Net) (s : CtrlState Net)
    (h : Reachable eng s)
    (hb : (snapshot eng s).1.blast_radius_triggered = true) :
    (snapshot eng s).1.containment_action ≠ none ∧
    (snapshot eng s).1.experiment_status = some "ENDED" := by
  have hinv := (reachable_stateInv eng s h).1
  revert hb
  unfold snapshot snapshot_diverged snapshot_converged trigger_containment
    rollback build_response
  simp only []
  split
  · -- first solve failed
    split
    · -- an experiment is installed
      rename_i e heq
      split
      · -- ACTIVE guardrailed: containment ran; all response shapes carry it
        split
        · split
          · exact fun _ => ⟨by simp, rfl⟩
          · exact fun _ => ⟨by simp, rfl⟩
        · exact fun _ => ⟨by simp, rfl⟩
      · -- sandbox or inactive: response echoes the stored experiment
        intro hb
        have hb2 : e.blast_radius_triggered = true := hb
        rcases hinv e heq hb2 with ⟨hca, hse⟩
        refine ⟨hca, ?_⟩
        show some e.status = some "ENDED"
        rw [hse]
    · -- no experiment: the response flag is false
      intro hb
      have hb2 : false = true := hb
      exact absurd hb2 (by decide)
  · -- solve returned a dict
    split
    · -- it reported non-convergence
      split
      · rename_i e heq
        split
        · split
          · split
            · exact fun _ => ⟨by simp, rfl⟩
            · exact fun _ => ⟨by simp, rfl⟩
          · exact fun _ => ⟨by simp, rfl⟩
        · intro hb
          have hb2 : e.blast_radius_triggered = true := hb
          rcases hinv e heq hb2 with ⟨hca, hse⟩
          refine ⟨hca, ?_⟩
          show some e.status = some "ENDED"
          rw [hse]
      · intro hb
        have hb2 : false = true := hb
        exact absurd hb2 (by decide)
    · -- converged
      split
      · rename_i e heq
        split
        · -- ACTIVE guardrailed
          split
          · -- threshold reached: containment ran
            exact fun _ => ⟨by simp, rfl⟩
          · -- below threshold: response echoes the stored experiment
            intro hb
            have hb2 : e.blast_radius_triggered = true := hb
            rcases hinv e heq hb2 with ⟨hca, hse⟩
            refine ⟨hca, ?_⟩
            show some e.status = some "ENDED"
            rw [hse]
        · intro hb
          have hb2 : e.blast_radius_triggered = true := hb
          rcases hinv e heq hb2 with ⟨hca, hse⟩
          refine ⟨hca, ?_⟩
          show some e.status = some "ENDED"
          rw [hse]
      · intro hb
        have hb2 : false = true := hb
        exact absurd hb2 (by decide)

/-- C8 witness: a reachable guardrailed state whose lossy snapshot trips the
guardrail. -/
theorem C8_witness :
    (snapshot engLossAll stC8).1.blast_radius_triggered = true ∧
    (snapshot engLossAll stC8).1.containment_action ≠ none ∧
    (snapshot engLossAll stC8).1.experiment_status = some "ENDED" := by
  have h := snapshot_guard_converged_fields engLossAll stC8
    (new_experiment "sandy_2012" "" "guardrailed" (1/5) 0 1) lossSnap
    rfl rfl rfl rfl rfl
  have hl : (new_experiment "sandy_2012" "" "guardrailed" (1/5) 0 1).max_load_loss_pct
      ≤ estLoss lossSnap.total_load_mw lossSnap.generation_mw := by
    norm_num [new_experiment, estLoss, lossSnap]
  have hb := h.2.2.1.trans (if_pos hl)
  have hr : Reachable engLossAll stC8 :=
    Reachable.begin_step "sandy_2012" "" "guardrailed" (1/5) 0
      (initState engLossAll) Reachable.init
  exact ⟨hb, C8_blast_implies_contained engLossAll stC8 hr hb⟩

/-- Converged snapshot with loss just below a 20 percent threshold but
rounding up to it: `estLoss = 0.19996`. -/
def nearSnapHigh : SolveSnap :=
  { converged := true, solve_time_ms := 1, min_voltage_pu := 1,
    total_load_mw := 100, generation_mw := 80004/1000 }

/-- Engine that always yields `nearSnapHigh`. -/
def engNearHigh : SimEngine Nat :=
  { create_grid := 0, run_simulation := fun _ => some nearSnapHigh }

/-- Converged snapshot with `estLoss = 0.20004`, which rounds down to
`0.2`. -/
def nearSnapLow : SolveSnap :=
  { converged := true, solve_time_ms := 1, min_voltage_pu := 1,
    total_load_mw := 100, generation_mw := 79996/1000 }

/-- Engine that always yields `nearSnapLow`. -/
def engNearLow : SimEngine Nat :=
  { create_grid := 0, run_simulation := fun _ => some nearSnapLow }

/-- The guardrailed experiment with threshold `0.20004`. -/
def expGuardTight : Experiment :=
  { expGuard with max_load_loss_pct := 20004/100000 }

/-- Controller state carrying `expGuardTight`. -/
def stTight : CtrlState Nat :=
  { stGuard with active_experiment := some expGuardTight }

/-- C10: the containment decision compares the unrounded loss estimate
against the threshold while the reported field is its 4-decimal rounding;
concretely, a reported value can equal the threshold with containment not
fired (estimate 0.19996, threshold 0.2) and can sit below the threshold
with containment fired (estimate 0.20004, threshold 0.20004, reported
0.2). -/
theorem C10_rounding_vs_containment :
    (∀ (N : Type) (eng : SimEngine N) (s : CtrlState N) (e : Experiment)
        (d : SolveSnap),
      s.active_experiment = some e → e.status = "ACTIVE" →
      e.execution_mode = "guardrailed" →
      eng.run_simulation s.net = some d → d.converged = true →
      e.containment_action = none →
      (snapshot eng s).1.estimated_load_loss_pct =
        some (pyRound4 (estLoss d.total_load_mw d.generation_mw)) ∧
      ((snapshot eng s).1.containment_action = some "AUTO_ABORT_ROLLBACK" ↔
        e.max_load_loss_pct ≤ estLoss d.total_load_mw d.generation_mw)) ∧
    ((snapshot engNearHigh stGuard).1.estimated_load_loss_pct =
        some expGuard.max_load_loss_pct ∧
      estLoss nearSnapHigh.total_load_mw nearSnapHigh.generation_mw <
        expGuard.max_load_loss_pct ∧
      (snapshot engNearHigh stGuard).1.containment_action = none ∧
      (snapshot engNearHigh stGuard).1.blast_radius_triggered = false) ∧
    ((snapshot engNearLow stTight).1.estimated_load_loss_pct = some (1/5) ∧
      (1/5 : ℚ) < expGuardTight.max_load_loss_pct ∧
      expGuardTight.max_load_loss_pct ≤
        estLoss nearSnapLow.total_load_mw nearSnapLow.generation_mw ∧
      (snapshot engNearLow stTight).1.containment_action =
        some "AUTO_ABORT_ROLLBACK" ∧
      (snapshot engNearLow stTight).1.blast_radius_triggered = true) := by
  refine ⟨?_, ?_, ?_⟩
  · intro N eng s e d hexp hst hmode hrun hconv hca
    have h := snapshot_guard_converged_fields eng s e d hexp hst hmode hrun hconv
    refine ⟨h.1, ?_⟩
    rw [h.2.1]
    by_cases hl : e.max_load_loss_pct ≤ estLoss d.total_load_mw d.generation_mw
    · rw [if_pos hl]
      exact ⟨fun _ => hl, fun _ => rfl⟩
    · rw [if_neg hl, hca]
      exact ⟨fun hx => absurd hx (by simp), fun hx => absurd hx hl⟩
  · have h := snapshot_guard_converged_fields engNearHigh stGuard expGuard
      nearSnapHigh rfl rfl rfl rfl rfl
    have hl : ¬ expGuard.max_load_loss_pct ≤
        estLoss nearSnapHigh.total_load_mw nearSnapHigh.generation_mw := by
      norm_num [expGuard, estLoss, nearSnapHigh]
    refine ⟨h.1.trans ?_, ?_, h.2.1.trans ((if_neg hl).trans rfl), h.2.2.1.trans ((if_neg hl).trans rfl)⟩
    · norm_num [pyRound4, roundHalfEven, estLoss, nearSnapHigh, expGuard]
    · norm_num [expGuard, estLoss, nearSnapHigh]
  · have h := snapshot_guard_converged_fields engNearLow stTight expGuardTight
      nearSnapLow rfl rfl rfl rfl rfl
    have hl : expGuardTight.max_load_loss_pct ≤
        estLoss nearSnapLow.total_load_mw nearSnapLow.generation_mw := by
      norm_num [expGuardTight, expGuard, estLoss, nearSnapLow]
    refine ⟨h.1.trans ?_, ?_, hl, h.2.1.trans (if_pos hl), h.2.2.1.trans (if_pos hl)⟩
    · norm_num [pyRound4, roundHalfEven, estLoss, nearSnapLow]
    · norm_num [expGuardTight, expGuard]

/-- C10 witness: the general comparison/reporting fact evaluated on the
near-threshold fixture. -/
theorem C10_witness :
    (snapshot engNearHigh stGuard).1.estimated_load_loss_pct =
      some (pyRound4 (estLoss nearSnapHigh.total_load_mw nearSnapHigh.generation_mw)) ∧
    ((snapshot engNearHigh stGuard).1.containment_action =
        some "AUTO_ABORT_ROLLBACK" ↔
      expGuard.max_load_loss_pct ≤
        estLoss nearSnapHigh.total_load_mw nearSnapHigh.generation_mw) :=
  C10_rounding_vs_containment.1 Nat engNearHigh stGuard expGuard nearSnapHigh
    rfl rfl rfl rfl rfl rfl

end Claims

end GridChaosMonkey
